import Mathlib

/-!
Verification of the fplbase render-target abstraction
(`include/fplbase/render_target.h`).

The header file gives the data model (the `RenderTarget` fields and the two
format enumerations) and the inline member functions `IsTexture`,
`GetTextureId` and `initialized`; those are embedded directly from the
source.  The out-of-line member functions (`Initialize`, `Delete`,
`SetAsRenderTarget`, `BindAsTexture`, `ScreenRenderTarget`) are only
declared in the header, so their behaviour is modelled from the
specification, against an explicit graphics-device state.
-/

namespace fplbase

/-- Model of mathfu::vec2i: a 2D integer vector with fields x and y. -/
structure vec2i where
  x : Int
  y : Int
deriving DecidableEq, Repr

/-- Opaque GPU buffer handle; the invalid sentinel is modelled as none. -/
abbrev BufferHandle := Option Nat

/-- Opaque GPU texture handle; the invalid sentinel is modelled as none. -/
abbrev TextureHandle := Option Nat

/-- Modelled from the spec: the handle-validity test used by
RenderTarget::IsTexture (declared elsewhere in fplbase; not under src/).
A handle is valid iff it is not the invalid sentinel. -/
def ValidBufferHandle (handle : BufferHandle) : Bool :=
  handle.isSome

/-- Texture formats for the texture generated by the render target
(render_target.h lines 33-45). -/
inductive RenderTargetTextureFormat where
  | kRenderTargetTextureFormatA8
  | kRenderTargetTextureFormatR8
  | kRenderTargetTextureFormatRGB8
  | kRenderTargetTextureFormatRGBA8
  | kRenderTargetTextureFormatDepth16
  | kRenderTargetTextureFormatDepth32F
  | kRenderTargetTextureFormatNone
deriving DecidableEq, Repr

/-- Depth stencil formats used by the render target's depth buffer
(render_target.h lines 48-58). -/
inductive DepthStencilFormat where
  | kDepthStencilFormatDepth16
  | kDepthStencilFormatDepth24
  | kDepthStencilFormatDepth32F
  | kDepthStencilFormatDepth24Stencil8
  | kDepthStencilFormatDepth32FStencil8
  | kDepthStencilFormatStencil8
  | kDepthStencilFormatNone
deriving DecidableEq, Repr

/-- Modelled from the spec: the external GraphicsContext/Renderer collaborator
(its implementation is not under src/).  It supplies resource creation and
release, capability queries for depth/stencil formats with a ranked fallback
list, the framebuffer completeness verdict, and the device-wide binding
state ("current render target" and per-unit bound textures). -/
structure Device where
  /-- Handles of the GPU resources currently allocated on the device. -/
  live : List Nat
  /-- The next fresh handle the device will hand out. -/
  next : Nat
  /-- Allocation capacity: an allocation succeeds iff the number of live
  resources is below this bound (models GPU memory exhaustion). -/
  capacity : Nat
  /-- Capability query: whether a depth/stencil format is natively supported. -/
  dsSupported : DepthStencilFormat → Bool
  /-- Ranked fallback list for an unsupported depth/stencil format. -/
  dsFallbacks : DepthStencilFormat → List DepthStencilFormat
  /-- Whether the driver reports attached framebuffers as complete. -/
  completeOk : Bool
  /-- Device-wide current render target; none means the default screen buffer. -/
  boundFramebuffer : BufferHandle
  /-- Device-wide texture bindings, one per texture unit. -/
  boundTextures : Nat → TextureHandle

/-- Modelled from the spec: GPU resource allocation.  Succeeds with a fresh
handle while the device has capacity left, otherwise the allocation is
refused. -/
def Device.alloc (d : Device) : Option (Nat × Device) :=
  if d.live.length < d.capacity then
    some (d.next, { d with live := d.next :: d.live, next := d.next + 1 })
  else
    none

/-- Modelled from the spec: releasing one GPU resource back to the device. -/
def Device.release (d : Device) (h : Nat) : Device :=
  { d with live := d.live.erase h }

/-- Modelled from the spec: releasing an optional GPU resource (a no-op on
the invalid sentinel). -/
def Device.releaseOpt (d : Device) : Option Nat → Device
  | none => d
  | some h => d.release h

/-- Modelled from the spec: depth/stencil format negotiation.  The requested
format is used when supported; otherwise the first supported entry of the
device's ranked fallback list is chosen; none means no viable fallback. -/
def resolveDS (d : Device) (f : DepthStencilFormat) : Option DepthStencilFormat :=
  List.find? d.dsSupported (f :: d.dsFallbacks f)

/-- The RenderTarget data (render_target.h lines 144-150), with opaque GPU
handles modelled as optional naturals (none = invalid sentinel). -/
structure RenderTarget where
  dimensions_ : vec2i
  framebuffer_id_ : BufferHandle
  rendered_texture_id_ : TextureHandle
  depth_buffer_id_ : BufferHandle
  initialized_ : Bool

/-- The default constructor RenderTarget() : initialized_(false)
(render_target.h line 71); the handles start at the invalid sentinel. -/
def RenderTarget.mkDefault : RenderTarget :=
  { dimensions_ := ⟨0, 0⟩
    framebuffer_id_ := none
    rendered_texture_id_ := none
    depth_buffer_id_ := none
    initialized_ := false }

/-- RenderTarget::IsTexture (render_target.h line 114):
return ValidBufferHandle(framebuffer_id_). -/
def RenderTarget.IsTexture (rt : RenderTarget) : Bool :=
  ValidBufferHandle rt.framebuffer_id_

/-- RenderTarget::GetTextureId (render_target.h lines 123-126):
assert(IsTexture()); return rendered_texture_id_.  The assertion firing is
modelled as the error case of Except. -/
def RenderTarget.GetTextureId (rt : RenderTarget) : Except String TextureHandle :=
  if rt.IsTexture then Except.ok rt.rendered_texture_id_
  else Except.error "assertion failed: IsTexture()"

/-- RenderTarget::initialized (render_target.h line 136):
return initialized_. -/
def RenderTarget.initialized (rt : RenderTarget) : Bool :=
  rt.initialized_

/-- Modelled from the spec: the final stage of RenderTarget::Initialize
(implementation not under src/): after attachment the framebuffer's
completeness is validated; an incomplete framebuffer causes failure and
every resource of the attempt (depth buffer, colour texture, framebuffer)
is released before returning. -/
def initFinish (rt : RenderTarget) (d : Device) (dims : vec2i)
    (fb : Nat) (texId : TextureHandle) (dbId : BufferHandle) :
    RenderTarget × Device :=
  if d.completeOk then
    ({ dimensions_ := dims
       framebuffer_id_ := some fb
       rendered_texture_id_ := texId
       depth_buffer_id_ := dbId
       initialized_ := true }, d)
  else
    ({ rt with initialized_ := false },
     ((d.releaseOpt dbId).releaseOpt texId).release fb)

/-- Modelled from the spec: the depth/stencil stage of
RenderTarget::Initialize (implementation not under src/): when the
depth/stencil format is not None, negotiate a supported format (requested or
ranked fallback) and allocate the depth/stencil renderbuffer; on negotiation
or allocation failure release the resources created so far. -/
def initDepth (rt : RenderTarget) (d : Device) (dims : vec2i)
    (dsf : DepthStencilFormat) (fb : Nat) (texId : TextureHandle) :
    RenderTarget × Device :=
  if dsf = DepthStencilFormat.kDepthStencilFormatNone then
    initFinish rt d dims fb texId none
  else
    match resolveDS d dsf with
    | none => ({ rt with initialized_ := false }, (d.releaseOpt texId).release fb)
    | some _ =>
      match d.alloc with
      | none => ({ rt with initialized_ := false }, (d.releaseOpt texId).release fb)
      | some (db, d') => initFinish rt d' dims fb texId (some db)

/-- Modelled from the spec: the colour-texture stage of
RenderTarget::Initialize (implementation not under src/): when the texture
format is not None, allocate the colour texture; on allocation failure
release the framebuffer created so far. -/
def initColor (rt : RenderTarget) (d : Device) (dims : vec2i)
    (tf : RenderTargetTextureFormat) (dsf : DepthStencilFormat) (fb : Nat) :
    RenderTarget × Device :=
  if tf = RenderTargetTextureFormat.kRenderTargetTextureFormatNone then
    initDepth rt d dims dsf fb none
  else
    match d.alloc with
    | none => ({ rt with initialized_ := false }, d.release fb)
    | some (tex, d') => initDepth rt d' dims dsf fb (some tex)

/-- Modelled from the spec: RenderTarget::Initialize(dimensions,
texture_format, depth_stencil_format) (implementation not under src/).
Configuration errors (non-positive dimensions, or both formats None) are
detected before any GPU call and leave the target uninitialized; then the
framebuffer object, the optional colour texture and the optional
depth/stencil buffer are allocated and the framebuffer completeness is
checked, releasing the attempt's resources on any failure. -/
def RenderTarget.Initialize (rt : RenderTarget) (d : Device) (dims : vec2i)
    (tf : RenderTargetTextureFormat) (dsf : DepthStencilFormat) :
    RenderTarget × Device :=
  if dims.x ≤ 0 ∨ dims.y ≤ 0 then
    ({ rt with initialized_ := false }, d)
  else if tf = RenderTargetTextureFormat.kRenderTargetTextureFormatNone ∧
          dsf = DepthStencilFormat.kDepthStencilFormatNone then
    ({ rt with initialized_ := false }, d)
  else
    match d.alloc with
    | none => ({ rt with initialized_ := false }, d)
    | some (fb, d1) => initColor rt d1 dims tf dsf fb

/-- Modelled from the spec: RenderTarget::Delete (implementation not under
src/): on an initialized target it releases the framebuffer object, the
colour texture (if owned) and the depth buffer (if owned), then resets all
handles to the invalid sentinel and clears initialized_; on an
already-deleted or never-initialized target it is a no-op. -/
def RenderTarget.Delete (rt : RenderTarget) (d : Device) :
    RenderTarget × Device :=
  if rt.initialized_ then
    ({ rt with
       framebuffer_id_ := none
       rendered_texture_id_ := none
       depth_buffer_id_ := none
       initialized_ := false },
     ((d.releaseOpt rt.framebuffer_id_).releaseOpt
        rt.rendered_texture_id_).releaseOpt rt.depth_buffer_id_)
  else
    (rt, d)

/-- Modelled from the spec: RenderTarget::SetAsRenderTarget (implementation
not under src/): a const member; its only effect is on the device-wide
current-render-target state, which it points at this target's framebuffer
(the default screen buffer when the handle is the sentinel). -/
def RenderTarget.SetAsRenderTarget (rt : RenderTarget) (d : Device) :
    RenderTarget × Device :=
  (rt, { d with boundFramebuffer := rt.framebuffer_id_ })

/-- Modelled from the spec: RenderTarget::BindAsTexture (implementation not
under src/): a const member; asserts unless IsTexture() holds, and otherwise
binds the target's colour texture on the given texture unit of the
device-wide binding state. -/
def RenderTarget.BindAsTexture (rt : RenderTarget) (texture_number : Nat)
    (d : Device) : Except String (RenderTarget × Device) :=
  if rt.IsTexture then
    Except.ok (rt,
      { d with boundTextures := fun i =>
          if i = texture_number then rt.rendered_texture_id_
          else d.boundTextures i })
  else
    Except.error "assertion failed: IsTexture()"

/-- Model of the Renderer collaborator: only its window size is consumed by
RenderTarget::ScreenRenderTarget. -/
structure Renderer where
  window_size : vec2i

/-- Modelled from the spec: RenderTarget::ScreenRenderTarget (implementation
not under src/): a factory wrapping the device's default framebuffer (the
sentinel handle), with dimensions taken from the renderer's window size,
initialized and owning no GPU resources. -/
def RenderTarget.ScreenRenderTarget (renderer : Renderer) : RenderTarget :=
  { dimensions_ := renderer.window_size
    framebuffer_id_ := none
    rendered_texture_id_ := none
    depth_buffer_id_ := none
    initialized_ := true }

/-- Modelled from the spec: how many GPU allocations a successful
RenderTarget::Initialize performs for a given format pair: the framebuffer
object, plus the colour texture when requested, plus the depth/stencil
buffer when requested. -/
def allocsNeeded (tf : RenderTargetTextureFormat) (dsf : DepthStencilFormat) : Nat :=
  1 + (if tf = RenderTargetTextureFormat.kRenderTargetTextureFormatNone then 0 else 1)
    + (if dsf = DepthStencilFormat.kDepthStencilFormatNone then 0 else 1)

/-- A concrete healthy device for witnesses: empty, room for four
allocations, every depth/stencil format supported, complete framebuffers. -/
def dev0 : Device :=
  { live := []
    next := 0
    capacity := 4
    dsSupported := fun _ => true
    dsFallbacks := fun _ => []
    completeOk := true
    boundFramebuffer := none
    boundTextures := fun _ => none }

/-- A concrete exhausted device for witnesses: room for a single allocation,
so initialization runs out of resources after the framebuffer object. -/
def devExhausted : Device :=
  { live := []
    next := 0
    capacity := 1
    dsSupported := fun _ => true
    dsFallbacks := fun _ => []
    completeOk := true
    boundFramebuffer := none
    boundTextures := fun _ => none }

/-- A concrete initialized off-screen texture target for witnesses. -/
def rtOffscreen : RenderTarget :=
  { dimensions_ := ⟨256, 256⟩
    framebuffer_id_ := some 0
    rendered_texture_id_ := some 1
    depth_buffer_id_ := some 2
    initialized_ := true }

lemma Initialize_success_both (rt : RenderTarget) (dev : Device) (dims : vec2i)
    (tf : RenderTargetTextureFormat) (dsf : DepthStencilFormat)
    (hx : 0 < dims.x) (hy : 0 < dims.y)
    (htf : tf ≠ RenderTargetTextureFormat.kRenderTargetTextureFormatNone)
    (hdsf : dsf ≠ DepthStencilFormat.kDepthStencilFormatNone)
    (hcap : dev.live.length + 3 ≤ dev.capacity)
    (hds : (resolveDS dev dsf).isSome = true)
    (hcmp : dev.completeOk = true) :
    rt.Initialize dev dims tf dsf =
      ({ dimensions_ := dims
         framebuffer_id_ := some dev.next
         rendered_texture_id_ := some (dev.next + 1)
         depth_buffer_id_ := some (dev.next + 2)
         initialized_ := true },
       { dev with
         live := (dev.next + 2) :: (dev.next + 1) :: dev.next :: dev.live
         next := dev.next + 3 }) := by
  obtain ⟨g, hg⟩ := Option.isSome_iff_exists.mp hds
  simp only [resolveDS] at hg
  have hnx : ¬(dims.x ≤ 0 ∨ dims.y ≤ 0) := by omega
  have h1 : dev.live.length < dev.capacity := by omega
  have h2 : dev.live.length + 1 < dev.capacity := by omega
  have h3 : dev.live.length + 2 < dev.capacity := by omega
  simp [RenderTarget.Initialize, initColor, initDepth, initFinish, Device.alloc,
        hnx, htf, hdsf, h1, h2, h3, hcmp, resolveDS, hg]

lemma Initialize_success_depthOnly (rt : RenderTarget) (dev : Device) (dims : vec2i)
    (dsf : DepthStencilFormat)
    (hx : 0 < dims.x) (hy : 0 < dims.y)
    (hdsf : dsf ≠ DepthStencilFormat.kDepthStencilFormatNone)
    (hcap : dev.live.length + 2 ≤ dev.capacity)
    (hds : (resolveDS dev dsf).isSome = true)
    (hcmp : dev.completeOk = true) :
    rt.Initialize dev dims RenderTargetTextureFormat.kRenderTargetTextureFormatNone dsf =
      ({ dimensions_ := dims
         framebuffer_id_ := some dev.next
         rendered_texture_id_ := none
         depth_buffer_id_ := some (dev.next + 1)
         initialized_ := true },
       { dev with
         live := (dev.next + 1) :: dev.next :: dev.live
         next := dev.next + 2 }) := by
  obtain ⟨g, hg⟩ := Option.isSome_iff_exists.mp hds
  simp only [resolveDS] at hg
  have hnx : ¬(dims.x ≤ 0 ∨ dims.y ≤ 0) := by omega
  have h1 : dev.live.length < dev.capacity := by omega
  have h2 : dev.live.length + 1 < dev.capacity := by omega
  simp [RenderTarget.Initialize, initColor, initDepth, initFinish, Device.alloc,
        hnx, hdsf, h1, h2, hcmp, resolveDS, hg]

lemma Initialize_success_colorOnly (rt : RenderTarget) (dev : Device) (dims : vec2i)
    (tf : RenderTargetTextureFormat)
    (hx : 0 < dims.x) (hy : 0 < dims.y)
    (htf : tf ≠ RenderTargetTextureFormat.kRenderTargetTextureFormatNone)
    (hcap : dev.live.length + 2 ≤ dev.capacity)
    (hcmp : dev.completeOk = true) :
    rt.Initialize dev dims tf DepthStencilFormat.kDepthStencilFormatNone =
      ({ dimensions_ := dims
         framebuffer_id_ := some dev.next
         rendered_texture_id_ := some (dev.next + 1)
         depth_buffer_id_ := none
         initialized_ := true },
       { dev with
         live := (dev.next + 1) :: dev.next :: dev.live
         next := dev.next + 2 }) := by
  have hnx : ¬(dims.x ≤ 0 ∨ dims.y ≤ 0) := by omega
  have h1 : dev.live.length < dev.capacity := by omega
  have h2 : dev.live.length + 1 < dev.capacity := by omega
  simp [RenderTarget.Initialize, initColor, initDepth, initFinish, Device.alloc,
        hnx, htf, h1, h2, hcmp]

lemma initFinish_fail (rt : RenderTarget) (d : Device) (dims : vec2i)
    (fb : Nat) (texId : TextureHandle) (dbId : BufferHandle)
    (h : (initFinish rt d dims fb texId dbId).1.initialized_ = false) :
    (initFinish rt d dims fb texId dbId).1 = { rt with initialized_ := false } ∧
    (initFinish rt d dims fb texId dbId).2.live =
      (((d.releaseOpt dbId).releaseOpt texId).live).erase fb := by
  by_cases hc : d.completeOk
  · simp [initFinish, hc] at h
  · simp [initFinish, hc, Device.release]

lemma initDepth_fail (rt : RenderTarget) (d : Device) (dims : vec2i)
    (dsf : DepthStencilFormat) (fb : Nat) (texId : TextureHandle)
    (h : (initDepth rt d dims dsf fb texId).1.initialized_ = false) :
    (initDepth rt d dims dsf fb texId).1 = { rt with initialized_ := false } ∧
    (initDepth rt d dims dsf fb texId).2.live =
      ((d.releaseOpt texId).live).erase fb := by
  by_cases hdsf : dsf = DepthStencilFormat.kDepthStencilFormatNone
  · subst hdsf
    unfold initDepth at h ⊢
    rw [if_pos rfl] at h ⊢
    simpa [Device.releaseOpt] using initFinish_fail rt d dims fb texId none h
  · unfold initDepth at h ⊢
    rw [if_neg hdsf] at h ⊢
    rcases hres : resolveDS d dsf with _ | g
    · exact ⟨rfl, rfl⟩
    · rw [hres] at h
      rcases halloc : d.alloc with _ | ⟨db, d'⟩
      · exact ⟨rfl, rfl⟩
      · rw [halloc] at h
        have hrec := initFinish_fail rt d' dims fb texId (some db) h
        refine ⟨hrec.1, ?_⟩
        rw [hrec.2]
        by_cases hcap : d.live.length < d.capacity
        · simp only [Device.alloc, if_pos hcap, Option.some.injEq, Prod.mk.injEq] at halloc
          obtain ⟨hdb, hd'⟩ := halloc
          subst hdb hd'
          rcases texId with _ | t <;>
            simp [Device.releaseOpt, Device.release]
        · simp [Device.alloc, if_neg hcap] at halloc

lemma initColor_fail (rt : RenderTarget) (d : Device) (dims : vec2i)
    (tf : RenderTargetTextureFormat) (dsf : DepthStencilFormat) (fb : Nat)
    (h : (initColor rt d dims tf dsf fb).1.initialized_ = false) :
    (initColor rt d dims tf dsf fb).1 = { rt with initialized_ := false } ∧
    (initColor rt d dims tf dsf fb).2.live = d.live.erase fb := by
  by_cases htf : tf = RenderTargetTextureFormat.kRenderTargetTextureFormatNone
  · subst htf
    unfold initColor at h ⊢
    rw [if_pos rfl] at h ⊢
    simpa [Device.releaseOpt] using initDepth_fail rt d dims dsf fb none h
  · unfold initColor at h ⊢
    rw [if_neg htf] at h ⊢
    rcases halloc : d.alloc with _ | ⟨tex, d'⟩
    · exact ⟨rfl, rfl⟩
    · rw [halloc] at h
      have hrec := initDepth_fail rt d' dims dsf fb (some tex) h
      refine ⟨hrec.1, ?_⟩
      rw [hrec.2]
      by_cases hcap : d.live.length < d.capacity
      · simp only [Device.alloc, if_pos hcap, Option.some.injEq, Prod.mk.injEq] at halloc
        obtain ⟨htex, hd'⟩ := halloc
        subst htex hd'
        simp [Device.releaseOpt, Device.release]
      · simp [Device.alloc, if_neg hcap] at halloc

lemma Initialize_fail (rt : RenderTarget) (dev : Device) (dims : vec2i)
    (tf : RenderTargetTextureFormat) (dsf : DepthStencilFormat)
    (h : (rt.Initialize dev dims tf dsf).1.initialized_ = false) :
    (rt.Initialize dev dims tf dsf).1 = { rt with initialized_ := false } ∧
    (rt.Initialize dev dims tf dsf).2.live = dev.live := by
  unfold RenderTarget.Initialize at h ⊢
  by_cases hd : dims.x ≤ 0 ∨ dims.y ≤ 0
  · rw [if_pos hd] at h ⊢
    exact ⟨rfl, rfl⟩
  · rw [if_neg hd] at h ⊢
    by_cases hfmt : tf = RenderTargetTextureFormat.kRenderTargetTextureFormatNone ∧
        dsf = DepthStencilFormat.kDepthStencilFormatNone
    · rw [if_pos hfmt] at h ⊢
      exact ⟨rfl, rfl⟩
    · rw [if_neg hfmt] at h ⊢
      rcases halloc : dev.alloc with _ | ⟨fb, d1⟩
      · exact ⟨rfl, rfl⟩
      · rw [halloc] at h
        have hrec := initColor_fail rt d1 dims tf dsf fb h
        refine ⟨hrec.1, ?_⟩
        rw [hrec.2]
        by_cases hcap : dev.live.length < dev.capacity
        · simp only [Device.alloc, if_pos hcap, Option.some.injEq, Prod.mk.injEq] at halloc
          obtain ⟨hfb, hd1⟩ := halloc
          subst hfb hd1
          simp
        · simp [Device.alloc, if_neg hcap] at halloc

lemma initFinish_fb (rt : RenderTarget) (d : Device) (dims : vec2i)
    (fb : Nat) (texId : TextureHandle) (dbId : BufferHandle)
    (h : (initFinish rt d dims fb texId dbId).1.initialized_ = true) :
    (initFinish rt d dims fb texId dbId).1.framebuffer_id_ = some fb := by
  by_cases hc : d.completeOk <;> simp [initFinish, hc] at h ⊢

lemma initDepth_fb (rt : RenderTarget) (d : Device) (dims : vec2i)
    (dsf : DepthStencilFormat) (fb : Nat) (texId : TextureHandle)
    (h : (initDepth rt d dims dsf fb texId).1.initialized_ = true) :
    (initDepth rt d dims dsf fb texId).1.framebuffer_id_ = some fb := by
  by_cases hdsf : dsf = DepthStencilFormat.kDepthStencilFormatNone
  · subst hdsf
    unfold initDepth at h ⊢
    rw [if_pos rfl] at h ⊢
    exact initFinish_fb _ _ _ _ _ _ h
  · unfold initDepth at h ⊢
    rw [if_neg hdsf] at h ⊢
    revert h
    rcases hres : resolveDS d dsf with _ | g
    · intro h
      simp at h
    · rcases halloc : d.alloc with _ | ⟨db, d2⟩
      · intro h
        simp at h
      · intro h
        exact initFinish_fb _ _ _ _ _ _ h

lemma initColor_fb (rt : RenderTarget) (d : Device) (dims : vec2i)
    (tf : RenderTargetTextureFormat) (dsf : DepthStencilFormat) (fb : Nat)
    (h : (initColor rt d dims tf dsf fb).1.initialized_ = true) :
    (initColor rt d dims tf dsf fb).1.framebuffer_id_ = some fb := by
  by_cases htf : tf = RenderTargetTextureFormat.kRenderTargetTextureFormatNone
  · subst htf
    unfold initColor at h ⊢
    rw [if_pos rfl] at h ⊢
    exact initDepth_fb _ _ _ _ _ _ h
  · unfold initColor at h ⊢
    rw [if_neg htf] at h ⊢
    revert h
    rcases halloc : d.alloc with _ | ⟨tex, d2⟩
    · intro h
      simp at h
    · intro h
      exact initDepth_fb _ _ _ _ _ _ h

lemma Initialize_fb_of_initialized (rt : RenderTarget) (dev : Device)
    (dims : vec2i) (tf : RenderTargetTextureFormat) (dsf : DepthStencilFormat)
    (h : (rt.Initialize dev dims tf dsf).1.initialized_ = true) :
    ((rt.Initialize dev dims tf dsf).1.framebuffer_id_).isSome = true := by
  unfold RenderTarget.Initialize at h ⊢
  by_cases hd : dims.x ≤ 0 ∨ dims.y ≤ 0
  · rw [if_pos hd] at h
    simp at h
  · rw [if_neg hd] at h ⊢
    by_cases hfmt : tf = RenderTargetTextureFormat.kRenderTargetTextureFormatNone ∧
        dsf = DepthStencilFormat.kDepthStencilFormatNone
    · rw [if_pos hfmt] at h
      simp at h
    · rw [if_neg hfmt] at h ⊢
      revert h
      rcases halloc : dev.alloc with _ | ⟨fb, d1⟩
      · intro h
        simp at h
      · intro h
        rw [initColor_fb _ _ _ _ _ _ h]
        rfl

lemma Initialize_succeeds (rt : RenderTarget) (dev : Device) (dims : vec2i)
    (tf : RenderTargetTextureFormat) (dsf : DepthStencilFormat)
    (hx : 0 < dims.x) (hy : 0 < dims.y)
    (hfmt : ¬(tf = RenderTargetTextureFormat.kRenderTargetTextureFormatNone ∧
              dsf = DepthStencilFormat.kDepthStencilFormatNone))
    (hcap : dev.live.length + allocsNeeded tf dsf ≤ dev.capacity)
    (hds : dsf ≠ DepthStencilFormat.kDepthStencilFormatNone →
           (resolveDS dev dsf).isSome = true)
    (hcmp : dev.completeOk = true) :
    (rt.Initialize dev dims tf dsf).1.initialized = true := by
  simp only [RenderTarget.initialized]
  by_cases htf : tf = RenderTargetTextureFormat.kRenderTargetTextureFormatNone
  · have hdsf : dsf ≠ DepthStencilFormat.kDepthStencilFormatNone :=
      fun hdsf => hfmt ⟨htf, hdsf⟩
    subst htf
    have hcap2 : dev.live.length + 2 ≤ dev.capacity := by
      simp [allocsNeeded, hdsf] at hcap
      omega
    rw [Initialize_success_depthOnly rt dev dims dsf hx hy hdsf hcap2 (hds hdsf) hcmp]
  · by_cases hdsf : dsf = DepthStencilFormat.kDepthStencilFormatNone
    · subst hdsf
      have hcap2 : dev.live.length + 2 ≤ dev.capacity := by
        simp [allocsNeeded, htf] at hcap
        omega
      rw [Initialize_success_colorOnly rt dev dims tf hx hy htf hcap2 hcmp]
    · have hcap3 : dev.live.length + 3 ≤ dev.capacity := by
        simp [allocsNeeded, htf, hdsf] at hcap
        omega
      rw [Initialize_success_both rt dev dims tf dsf hx hy htf hdsf hcap3 (hds hdsf) hcmp]

/-- C2: for every dimensions value with x <= 0 or y <= 0, and for every call
where both the texture format and the depth/stencil format are None,
Initialize fails before any GPU call (the device state is completely
unchanged, so no GPU resource is allocated) and leaves the target with
initialized() = false. -/
theorem initialize_config_error (rt : RenderTarget) (dev : Device) (dims : vec2i)
    (tf : RenderTargetTextureFormat) (dsf : DepthStencilFormat)
    (h : (dims.x ≤ 0 ∨ dims.y ≤ 0) ∨
         (tf = RenderTargetTextureFormat.kRenderTargetTextureFormatNone ∧
          dsf = DepthStencilFormat.kDepthStencilFormatNone)) :
    (rt.Initialize dev dims tf dsf).1.initialized = false ∧
    (rt.Initialize dev dims tf dsf).2 = dev := by
  unfold RenderTarget.Initialize RenderTarget.initialized
  rcases h with hd | hfmt
  · rw [if_pos hd]
    exact ⟨rfl, rfl⟩
  · by_cases hd : dims.x ≤ 0 ∨ dims.y ≤ 0
    · rw [if_pos hd]
      exact ⟨rfl, rfl⟩
    · rw [if_neg hd, if_pos hfmt]
      exact ⟨rfl, rfl⟩

/-- Witness for C2 at zero width, and at an all-None format pair. -/
theorem initialize_config_error_witness :
    ((RenderTarget.mkDefault.Initialize dev0 ⟨0, 256⟩
        RenderTargetTextureFormat.kRenderTargetTextureFormatRGBA8
        DepthStencilFormat.kDepthStencilFormatDepth24).1.initialized = false ∧
     (RenderTarget.mkDefault.Initialize dev0 ⟨0, 256⟩
        RenderTargetTextureFormat.kRenderTargetTextureFormatRGBA8
        DepthStencilFormat.kDepthStencilFormatDepth24).2 = dev0) ∧
    ((RenderTarget.mkDefault.Initialize dev0 ⟨256, 256⟩
        RenderTargetTextureFormat.kRenderTargetTextureFormatNone
        DepthStencilFormat.kDepthStencilFormatNone).1.initialized = false ∧
     (RenderTarget.mkDefault.Initialize dev0 ⟨256, 256⟩
        RenderTargetTextureFormat.kRenderTargetTextureFormatNone
        DepthStencilFormat.kDepthStencilFormatNone).2 = dev0) :=
  ⟨initialize_config_error RenderTarget.mkDefault dev0 ⟨0, 256⟩
      RenderTargetTextureFormat.kRenderTargetTextureFormatRGBA8
      DepthStencilFormat.kDepthStencilFormatDepth24 (Or.inl (by decide)),
   initialize_config_error RenderTarget.mkDefault dev0 ⟨256, 256⟩
      RenderTargetTextureFormat.kRenderTargetTextureFormatNone
      DepthStencilFormat.kDepthStencilFormatNone (Or.inr (by decide))⟩

/-- C3: for every dimensions value with x > 0 and y > 0 and every format pair
with at least one non-None format, when the device supports the request (it
has capacity for the attempt's allocations, the depth/stencil format or a
ranked fallback is supported, and framebuffers validate as complete),
Initialize followed by initialized() returns true. -/
theorem initialize_valid_succeeds (rt : RenderTarget) (dev : Device)
    (dims : vec2i) (tf : RenderTargetTextureFormat) (dsf : DepthStencilFormat)
    (hx : 0 < dims.x) (hy : 0 < dims.y)
    (hfmt : ¬(tf = RenderTargetTextureFormat.kRenderTargetTextureFormatNone ∧
              dsf = DepthStencilFormat.kDepthStencilFormatNone))
    (hcap : dev.live.length + allocsNeeded tf dsf ≤ dev.capacity)
    (hds : dsf ≠ DepthStencilFormat.kDepthStencilFormatNone →
           (resolveDS dev dsf).isSome = true)
    (hcmp : dev.completeOk = true) :
    (rt.Initialize dev dims tf dsf).1.initialized = true :=
  Initialize_succeeds rt dev dims tf dsf hx hy hfmt hcap hds hcmp

/-- Witness for C3 at 256x256, RGBA8 colour and Depth24Stencil8. -/
theorem initialize_valid_succeeds_witness :
    (RenderTarget.mkDefault.Initialize dev0 ⟨256, 256⟩
        RenderTargetTextureFormat.kRenderTargetTextureFormatRGBA8
        DepthStencilFormat.kDepthStencilFormatDepth24Stencil8).1.initialized = true :=
  initialize_valid_succeeds RenderTarget.mkDefault dev0 ⟨256, 256⟩
    RenderTargetTextureFormat.kRenderTargetTextureFormatRGBA8
    DepthStencilFormat.kDepthStencilFormatDepth24Stencil8
    (by decide) (by decide) (by decide) (by decide) (fun _ => by decide) rfl

/-- C4: Delete() is idempotent: on every target (initialized, already
deleted, or never initialized) a second Delete() leaves exactly the state
the first one produced, and after Delete() the target reports
initialized() = false. -/
theorem delete_idempotent (rt : RenderTarget) (dev : Device) :
    ((rt.Delete dev).1.Delete (rt.Delete dev).2) = rt.Delete dev ∧
    (rt.Delete dev).1.initialized = false := by
  by_cases h : rt.initialized_ <;>
    simp [RenderTarget.Delete, RenderTarget.initialized, h]

/-- C6: the screen target is initialized, is not a texture, takes its
dimensions from the renderer's window size, owns no GPU resources (all its
handles are the invalid sentinel), and querying its texture id is a contract
violation (the modelled assertion fires). -/
theorem screen_render_target_properties (r : Renderer) :
    (RenderTarget.ScreenRenderTarget r).initialized = true ∧
    (RenderTarget.ScreenRenderTarget r).IsTexture = false ∧
    (RenderTarget.ScreenRenderTarget r).dimensions_ = r.window_size ∧
    (RenderTarget.ScreenRenderTarget r).framebuffer_id_ = none ∧
    (RenderTarget.ScreenRenderTarget r).rendered_texture_id_ = none ∧
    (RenderTarget.ScreenRenderTarget r).depth_buffer_id_ = none ∧
    (RenderTarget.ScreenRenderTarget r).GetTextureId =
      Except.error "assertion failed: IsTexture()" := by
  simp [RenderTarget.ScreenRenderTarget, RenderTarget.initialized,
        RenderTarget.IsTexture, ValidBufferHandle, RenderTarget.GetTextureId]

/-- C8: GetTextureId() has precondition IsTexture(): whenever IsTexture()
holds it returns the stored colour texture handle (the assertion cannot
fire), and whenever IsTexture() is false the assertion fires instead of a
value being returned. -/
theorem getTextureId_contract (rt : RenderTarget) :
    (rt.IsTexture = true → rt.GetTextureId = Except.ok rt.rendered_texture_id_) ∧
    (rt.IsTexture = false →
      rt.GetTextureId = Except.error "assertion failed: IsTexture()") := by
  constructor <;> intro h <;> simp [RenderTarget.GetTextureId, h]

/-- Witness for C8 on a texture-backed target and on the screen target. -/
theorem getTextureId_contract_witness :
    rtOffscreen.GetTextureId = Except.ok rtOffscreen.rendered_texture_id_ ∧
    (RenderTarget.ScreenRenderTarget ⟨⟨640, 480⟩⟩).GetTextureId =
      Except.error "assertion failed: IsTexture()" :=
  ⟨(getTextureId_contract rtOffscreen).1 rfl,
   (getTextureId_contract (RenderTarget.ScreenRenderTarget ⟨⟨640, 480⟩⟩)).2 rfl⟩

/-- C9: after Delete() on an initialized target, all three GPU handles are
reset to the invalid sentinel, initialized() = false, and consequently
IsTexture() = false. -/
theorem delete_resets_handles (rt : RenderTarget) (dev : Device)
    (h : rt.initialized = true) :
    (rt.Delete dev).1.framebuffer_id_ = none ∧
    (rt.Delete dev).1.rendered_texture_id_ = none ∧
    (rt.Delete dev).1.depth_buffer_id_ = none ∧
    (rt.Delete dev).1.initialized = false ∧
    (rt.Delete dev).1.IsTexture = false := by
  simp only [RenderTarget.initialized] at h
  simp [RenderTarget.Delete, RenderTarget.initialized, RenderTarget.IsTexture,
        ValidBufferHandle, h]

/-- Witness for C9 at a concrete initialized off-screen target. -/
theorem delete_resets_handles_witness :
    (rtOffscreen.Delete dev0).1.framebuffer_id_ = none ∧
    (rtOffscreen.Delete dev0).1.rendered_texture_id_ = none ∧
    (rtOffscreen.Delete dev0).1.depth_buffer_id_ = none ∧
    (rtOffscreen.Delete dev0).1.initialized = false ∧
    (rtOffscreen.Delete dev0).1.IsTexture = false :=
  delete_resets_handles rtOffscreen dev0 rfl

/-- C10: SetAsRenderTarget() and BindAsTexture() are const members: they
never modify any field of the target they are invoked on; their only
mutation is to the external device state. -/
theorem bind_operations_const (rt : RenderTarget) (dev : Device) (slot : Nat) :
    (rt.SetAsRenderTarget dev).1 = rt ∧
    (∀ res, rt.BindAsTexture slot dev = Except.ok res → res.1 = rt) := by
  refine ⟨rfl, fun res h => ?_⟩
  unfold RenderTarget.BindAsTexture at h
  by_cases ht : rt.IsTexture
  · rw [if_pos ht] at h
    injection h with h
    rw [← h]
  · rw [if_neg ht] at h
    cases h

/-- Witness for C10 at a concrete texture-backed target. -/
theorem bind_operations_const_witness :
    (rtOffscreen.SetAsRenderTarget dev0).1 = rtOffscreen ∧
    ∃ res, rtOffscreen.BindAsTexture 0 dev0 = Except.ok res ∧ res.1 = rtOffscreen :=
  ⟨(bind_operations_const rtOffscreen dev0 0).1,
   ⟨_, rfl, (bind_operations_const rtOffscreen dev0 0).2 _ rfl⟩⟩

/-- C1 counterexample: a depth-only target (textureFormat = None) produced
by a successful Initialize has IsTexture() = true, not false as the claim
demands: IsTexture() tests the framebuffer handle, not the texture. -/
theorem isTexture_depth_only_counterexample :
    (RenderTarget.mkDefault.Initialize dev0 ⟨256, 256⟩
        RenderTargetTextureFormat.kRenderTargetTextureFormatNone
        DepthStencilFormat.kDepthStencilFormatDepth24).1.initialized = true ∧
    ¬((RenderTarget.mkDefault.Initialize dev0 ⟨256, 256⟩
        RenderTargetTextureFormat.kRenderTargetTextureFormatNone
        DepthStencilFormat.kDepthStencilFormatDepth24).1.IsTexture = false) := by
  decide

/-- C1 amended: IsTexture() is true iff the framebuffer handle is valid,
i.e. for every successfully initialized off-screen target - regardless of
its texture format, so also for depth-only targets - IsTexture() = true,
while the screen target has IsTexture() = false. -/
theorem isTexture_iff_offscreen (rt : RenderTarget) (dev : Device)
    (dims : vec2i) (tf : RenderTargetTextureFormat) (dsf : DepthStencilFormat)
    (r : Renderer)
    (hsucc : (rt.Initialize dev dims tf dsf).1.initialized = true) :
    (rt.Initialize dev dims tf dsf).1.IsTexture = true ∧
    (RenderTarget.ScreenRenderTarget r).IsTexture = false := by
  refine ⟨?_, rfl⟩
  simp only [RenderTarget.initialized] at hsucc
  have hfb := Initialize_fb_of_initialized rt dev dims tf dsf hsucc
  simp [RenderTarget.IsTexture, ValidBufferHandle, hfb]

/-- Witness for the amended C1 at a depth-only initialization. -/
theorem isTexture_iff_offscreen_witness :
    (RenderTarget.mkDefault.Initialize dev0 ⟨256, 256⟩
        RenderTargetTextureFormat.kRenderTargetTextureFormatNone
        DepthStencilFormat.kDepthStencilFormatDepth24).1.IsTexture = true ∧
    (RenderTarget.ScreenRenderTarget ⟨⟨640, 480⟩⟩).IsTexture = false :=
  isTexture_iff_offscreen RenderTarget.mkDefault dev0 ⟨256, 256⟩
    RenderTargetTextureFormat.kRenderTargetTextureFormatNone
    DepthStencilFormat.kDepthStencilFormatDepth24 ⟨⟨640, 480⟩⟩ (by decide)

/-- C7: whenever Initialize fails (allocation refused, no viable
depth/stencil fallback, or incomplete framebuffer), the failure is atomic:
the target comes back with only initialized_ = false (all other fields as
before the call) and the device's live GPU resources are exactly those
before the call, so every partially-created resource of the attempt was
released before Initialize returned. -/
theorem initialize_failure_atomic (rt : RenderTarget) (dev : Device)
    (dims : vec2i) (tf : RenderTargetTextureFormat) (dsf : DepthStencilFormat)
    (hfail : (rt.Initialize dev dims tf dsf).1.initialized = false) :
    (rt.Initialize dev dims tf dsf).1 = { rt with initialized_ := false } ∧
    (rt.Initialize dev dims tf dsf).2.live = dev.live := by
  simp only [RenderTarget.initialized] at hfail
  exact Initialize_fail rt dev dims tf dsf hfail

/-- Witness for C7 on an exhausted device: the framebuffer object is
allocated, the colour texture allocation is refused, and the attempt rolls
back completely. -/
theorem initialize_failure_atomic_witness :
    (RenderTarget.mkDefault.Initialize devExhausted ⟨256, 256⟩
        RenderTargetTextureFormat.kRenderTargetTextureFormatRGBA8
        DepthStencilFormat.kDepthStencilFormatDepth24).1 =
      { RenderTarget.mkDefault with initialized_ := false } ∧
    (RenderTarget.mkDefault.Initialize devExhausted ⟨256, 256⟩
        RenderTargetTextureFormat.kRenderTargetTextureFormatRGBA8
        DepthStencilFormat.kDepthStencilFormatDepth24).2.live = devExhausted.live :=
  initialize_failure_atomic RenderTarget.mkDefault devExhausted ⟨256, 256⟩
    RenderTargetTextureFormat.kRenderTargetTextureFormatRGBA8
    DepthStencilFormat.kDepthStencilFormatDepth24 (by decide)

/-- C5: round-trip: when Initialize succeeds (valid dimensions and formats,
device with capacity, supported depth/stencil request, complete
framebuffers), the sequence Initialize; Delete; Initialize with the same
arguments succeeds again: Delete fully releases the owned resources. -/
theorem initialize_delete_initialize_roundtrip (rt : RenderTarget)
    (dev : Device) (dims : vec2i) (tf : RenderTargetTextureFormat)
    (dsf : DepthStencilFormat) (rt1 rt2 : RenderTarget) (d1 d2 : Device)
    (hx : 0 < dims.x) (hy : 0 < dims.y)
    (hfmt : ¬(tf = RenderTargetTextureFormat.kRenderTargetTextureFormatNone ∧
              dsf = DepthStencilFormat.kDepthStencilFormatNone))
    (hcap : dev.live.length + allocsNeeded tf dsf ≤ dev.capacity)
    (hds : dsf ≠ DepthStencilFormat.kDepthStencilFormatNone →
           (resolveDS dev dsf).isSome = true)
    (hcmp : dev.completeOk = true)
    (h1 : rt.Initialize dev dims tf dsf = (rt1, d1))
    (h2 : rt1.Delete d1 = (rt2, d2)) :
    (rt2.Initialize d2 dims tf dsf).1.initialized = true := by
  by_cases htf : tf = RenderTargetTextureFormat.kRenderTargetTextureFormatNone
  · have hdsf : dsf ≠ DepthStencilFormat.kDepthStencilFormatNone :=
      fun hdsf => hfmt ⟨htf, hdsf⟩
    subst htf
    have hcap2 : dev.live.length + 2 ≤ dev.capacity := by
      simp [allocsNeeded, hdsf] at hcap
      omega
    rw [Initialize_success_depthOnly rt dev dims dsf hx hy hdsf hcap2
        (hds hdsf) hcmp] at h1
    injection h1 with h1a h1b
    subst h1a
    subst h1b
    simp [RenderTarget.Delete, Device.releaseOpt, Device.release,
          List.erase_cons] at h2
    obtain ⟨h2a, h2b⟩ := h2
    subst h2a
    subst h2b
    exact Initialize_succeeds _ _ dims _ dsf hx hy hfmt hcap hds hcmp
  · by_cases hdsf : dsf = DepthStencilFormat.kDepthStencilFormatNone
    · subst hdsf
      have hcap2 : dev.live.length + 2 ≤ dev.capacity := by
        simp [allocsNeeded, htf] at hcap
        omega
      rw [Initialize_success_colorOnly rt dev dims tf hx hy htf hcap2 hcmp] at h1
      injection h1 with h1a h1b
      subst h1a
      subst h1b
      simp [RenderTarget.Delete, Device.releaseOpt, Device.release,
            List.erase_cons] at h2
      obtain ⟨h2a, h2b⟩ := h2
      subst h2a
      subst h2b
      exact Initialize_succeeds _ _ dims tf _ hx hy hfmt hcap hds hcmp
    · have hcap3 : dev.live.length + 3 ≤ dev.capacity := by
        simp [allocsNeeded, htf, hdsf] at hcap
        omega
      rw [Initialize_success_both rt dev dims tf dsf hx hy htf hdsf hcap3
          (hds hdsf) hcmp] at h1
      injection h1 with h1a h1b
      subst h1a
      subst h1b
      simp [RenderTarget.Delete, Device.releaseOpt, Device.release,
            List.erase_cons] at h2
      obtain ⟨h2a, h2b⟩ := h2
      subst h2a
      subst h2b
      exact Initialize_succeeds _ _ dims tf dsf hx hy hfmt hcap hds hcmp

/-- Witness for C5 at 256x256, RGBA8 and Depth24Stencil8 on the healthy
device. -/
theorem initialize_delete_initialize_roundtrip_witness :
    (((RenderTarget.mkDefault.Initialize dev0 ⟨256, 256⟩
          RenderTargetTextureFormat.kRenderTargetTextureFormatRGBA8
          DepthStencilFormat.kDepthStencilFormatDepth24Stencil8).1.Delete
        (RenderTarget.mkDefault.Initialize dev0 ⟨256, 256⟩
          RenderTargetTextureFormat.kRenderTargetTextureFormatRGBA8
          DepthStencilFormat.kDepthStencilFormatDepth24Stencil8).2).1.Initialize
       ((RenderTarget.mkDefault.Initialize dev0 ⟨256, 256⟩
          RenderTargetTextureFormat.kRenderTargetTextureFormatRGBA8
          DepthStencilFormat.kDepthStencilFormatDepth24Stencil8).1.Delete
        (RenderTarget.mkDefault.Initialize dev0 ⟨256, 256⟩
          RenderTargetTextureFormat.kRenderTargetTextureFormatRGBA8
          DepthStencilFormat.kDepthStencilFormatDepth24Stencil8).2).2
       ⟨256, 256⟩ RenderTargetTextureFormat.kRenderTargetTextureFormatRGBA8
       DepthStencilFormat.kDepthStencilFormatDepth24Stencil8).1.initialized = true :=
  initialize_delete_initialize_roundtrip RenderTarget.mkDefault dev0 ⟨256, 256⟩
    RenderTargetTextureFormat.kRenderTargetTextureFormatRGBA8
    DepthStencilFormat.kDepthStencilFormatDepth24Stencil8 _ _ _ _
    (by decide) (by decide) (by decide) (by decide) (fun _ => by decide) rfl
    rfl rfl

end fplbase
